import Mathlib

/-!
Shallow embedding of `src/music/music.py`, an interactive CLI that appends one
song record to a JSON catalog (`metadata.json`) and folds its categorical
values into a filter index (`filters.json`).

Modelling conventions:
* JSON values are the inductive `JValue`; a parsed Python dict is an
  association list of string keys (insertion order preserved, as in Python).
* A persisted file is a `FileState`: absent, unreadable (exists but `open`
  raises), unparsable (`json.load` raises), or parsed to a `JValue`.
* Python code that can raise an uncaught exception is embedded in
  `Except Unit`; `.error ()` marks an exception escaping the function.
* Operator input is a finite script `List String`, one element per `input()`
  call; a prompt loop that exhausts the script while still waiting returns
  `none` (on an all-blank infinite stream the Python loop never returns).
* Printed retry messages are returned as an output log where a claim needs
  them; ordinary labels and banners are not modelled.
* `datetime.now().year` and `uuid.uuid4()` are environment inputs, passed as
  explicit parameters `currentYear` and `uid`.
-/

namespace Music

/-- A JSON value as produced by `json.load`. Numbers are modelled as integers
(the program only ever stores years and strings). -/
inductive JValue where
  | null
  | bool (b : Bool)
  | num (n : Int)
  | str (s : String)
  | arr (xs : List JValue)
  | obj (kvs : List (String × JValue))

/-- Python dict lookup `d[k]` on an association list (first matching key). -/
def getKey : List (String × JValue) → String → Option JValue
  | [], _ => none
  | (k', v') :: rest, k => if k' = k then some v' else getKey rest k

/-- Python dict assignment `d[k] = v`: replace in place if the key exists,
otherwise append at the end (insertion order). -/
def setKey : List (String × JValue) → String → JValue → List (String × JValue)
  | [], k, v => [(k, v)]
  | (k', v') :: rest, k, v =>
      if k' = k then (k, v) :: rest else (k', v') :: setKey rest k v

/-- State of a persisted JSON file at load time. -/
inductive FileState where
  | absent
  | unreadable
  | unparsable
  | parsed (v : JValue)

/-- load_metadata: returns `{"songs": []}` when the file is absent or fails to
parse; when parsed to a dict, normalizes a missing or non-list `songs` key to
`[]`. When the file exists but `open` raises, the exception is uncaught (the
`try` only wraps `json.load`); when the parsed top-level value is not a dict,
the membership test or the `data["songs"] = []` assignment raises `TypeError`,
also uncaught. -/
def load_metadata : FileState → Except Unit JValue
  | .absent => .ok (.obj [("songs", .arr [])])
  | .unreadable => .error ()
  | .unparsable => .ok (.obj [("songs", .arr [])])
  | .parsed (.obj kvs) =>
      match getKey kvs "songs" with
      | some (.arr _) => .ok (.obj kvs)
      | _ => .ok (.obj (setKey kvs "songs" (.arr [])))
  | .parsed _ => .error ()

/-- The six filter-index keys, in the order the source iterates them. -/
def filterKeys : List String :=
  ["languages", "genres", "years", "singers", "musicBy", "albums"]

/-- The empty filter document returned for an absent or unparsable file. -/
def emptyFiltersJson : JValue :=
  .obj (filterKeys.map (fun k => (k, .arr [])))

/-- One iteration of the load_filters normalization loop:
`if key not in data or not isinstance(data[key], list): data[key] = []`. -/
def normalizeKey (kvs : List (String × JValue)) (k : String) :
    List (String × JValue) :=
  match getKey kvs k with
  | some (.arr _) => kvs
  | _ => setKey kvs k (.arr [])

/-- load_filters: empty structure when absent or unparsable; when parsed to a
dict, each of the six keys is normalized to a list. As with load_metadata, an
unreadable file or a parsed non-dict top-level value raises uncaught. -/
def load_filters : FileState → Except Unit JValue
  | .absent => .ok emptyFiltersJson
  | .unreadable => .error ()
  | .unparsable => .ok emptyFiltersJson
  | .parsed (.obj kvs) => .ok (.obj (filterKeys.foldl normalizeKey kvs))
  | .parsed _ => .error ()

/-- Shape of `getKey` output after one normalization pass: the stored list if
the key held a list, `[]` otherwise. -/
def normArr : Option JValue → List JValue
  | some (.arr xs) => xs
  | _ => []

/-- In-memory filter index (the six lists of `filters.json`). Years are
integers, every other category holds strings. -/
structure Filters where
  languages : List String
  genres : List String
  years : List Int
  singers : List String
  musicBy : List String
  albums : List String
  deriving DecidableEq

/-- Python `sorted(set(xs))` for strings: the distinct elements in ascending
order. -/
def dedupSortStr (xs : List String) : List String :=
  List.insertionSort (fun a b => a ≤ b) xs.dedup

/-- Python `sorted(set(xs))` for integers. -/
def dedupSortInt (xs : List Int) : List Int :=
  List.insertionSort (fun a b => a ≤ b) xs.dedup

/-- save_filters: before serializing, each of the six lists is replaced by the
sorted sequence of its distinct elements. -/
def save_filters (f : Filters) : Filters :=
  { languages := dedupSortStr f.languages
    genres := dedupSortStr f.genres
    years := dedupSortInt f.years
    singers := dedupSortStr f.singers
    musicBy := dedupSortStr f.musicBy
    albums := dedupSortStr f.albums }

/-- Serialization of the filter index as the JSON object json.dump writes. -/
def filtersToJson (f : Filters) : JValue :=
  .obj [("languages", .arr (f.languages.map .str)),
        ("genres", .arr (f.genres.map .str)),
        ("years", .arr (f.years.map .num)),
        ("singers", .arr (f.singers.map .str)),
        ("musicBy", .arr (f.musicBy.map .str)),
        ("albums", .arr (f.albums.map .str))]

/-- CDN root for audio files. -/
def AUDIO_CDN_BASE : String :=
  "https://cdn.jsdelivr.net/gh/luffytaroOnePiece/audio/main/"

/-- CDN root for cover images. -/
def COVER_CDN_BASE : String :=
  "https://cdn.jsdelivr.net/gh/luffytaroOnePiece/coverimages/main/"

def AUDIO_EXT : String := ".mp3"

def COVER_SUFFIX : String := "-C"

def COVER_EXT : String := ".jpg"

def LANGUAGES : List String :=
  ["English", "Telugu", "Hindi", "Tamil",
   "Kannada", "Malayalam", "Japanese", "Other"]

def GENRES : List String :=
  ["Romance", "Mass", "Melody", "Dance", "Sad",
   "Devotional", "Villain", "Item", "Anime"]

def YOUTUBE_QUALITIES : List String :=
  ["144p", "240p", "360p", "480p", "720p",
   "1080p", "1440p", "2160p", "4320p"]

/-- Retry message printed by prompt_required on blank input. -/
def requiredMsg : String := "This field is required."

/-- Retry message printed by prompt_choice on invalid input. -/
def invalidMsg : String := "Invalid. Try again."

/-- Python `s.strip()`: drop leading and trailing whitespace. (Modelled over
ASCII whitespace via `Char.isWhitespace`; the claims only exercise spaces.) -/
def pyStrip (s : String) : String :=
  ⟨((s.data.dropWhile Char.isWhitespace).reverse.dropWhile Char.isWhitespace).reverse⟩

/-- Python `s.isdigit()` for the menu selections: non-empty and all (ASCII)
digits. -/
def pyIsDigit (s : String) : Bool :=
  !s.data.isEmpty && s.data.all Char.isDigit

/-- Numeric value of an all-digit character list (what `int` returns on it). -/
def digitsVal (cs : List Char) : Nat :=
  cs.foldl (fun a c => a * 10 + (c.toNat - 48)) 0

/-- prompt_required: reads lines until one is non-blank after stripping and
returns it, together with the unconsumed input and the retry messages printed.
`none` means the script ran out while the loop was still reading. -/
def prompt_required : List String → Option (String × List String × List String)
  | [] => none
  | line :: rest =>
      if pyStrip line = "" then
        match prompt_required rest with
        | none => none
        | some (v, rem, out) => some (v, rem, requiredMsg :: out)
      else
        some (pyStrip line, rest, [])

/-- prompt_optional: reads one line and returns it stripped (possibly empty). -/
def prompt_optional : List String → Option (String × List String)
  | [] => none
  | line :: rest => some (pyStrip line, rest)

/-- prompt_choice: reads selections until one is a digit string; `0` reads one
more line and returns it stripped as a custom value, `1..len(options)` returns
the corresponding option, anything else prints the retry message and loops. -/
def prompt_choice (options : List String) :
    List String → Option (String × List String × List String)
  | [] => none
  | line :: rest =>
      if pyIsDigit (pyStrip line) then
        if digitsVal (pyStrip line).data = 0 then
          match rest with
          | [] => none
          | custom :: rest2 => some (pyStrip custom, rest2, [])
        else if digitsVal (pyStrip line).data ≤ options.length then
          some (options.getD (digitsVal (pyStrip line).data - 1) "", rest, [])
        else
          match prompt_choice options rest with
          | none => none
          | some (v, rem, out) => some (v, rem, invalidMsg :: out)
      else
        match prompt_choice options rest with
        | none => none
        | some (v, rem, out) => some (v, rem, invalidMsg :: out)

/-- Python `text.split(",")` on the character list: split at every comma. -/
def splitOnComma : List Char → List (List Char)
  | [] => [[]]
  | ',' :: rest => [] :: splitOnComma rest
  | c :: rest =>
      match splitOnComma rest with
      | [] => [[c]]
      | piece :: pieces => (c :: piece) :: pieces

/-- split_list: split on commas, strip each piece, drop empty pieces. -/
def split_list (text : String) : List String :=
  ((splitOnComma text.data).map (fun cs => pyStrip ⟨cs⟩)).filter (fun x => x ≠ "")

/-- Python `int(s)` on an already-stripped string: an optional sign followed by
one or more ASCII digits; anything else raises `ValueError` (`none` here).
(Unicode digits and underscore grouping, which Python also accepts, are not
modelled; no claim depends on them.) -/
def parseIntPy (s : String) : Option Int :=
  match s.data with
  | [] => none
  | '-' :: rest =>
      if rest ≠ [] ∧ rest.all Char.isDigit then some (-(digitsVal rest : Int))
      else none
  | '+' :: rest =>
      if rest ≠ [] ∧ rest.all Char.isDigit then some ((digitsVal rest : Int))
      else none
  | cs =>
      if cs.all Char.isDigit then some ((digitsVal cs : Int))
      else none

/-- URL synthesis for the audio file. -/
def audio_url (baseName : String) : String :=
  AUDIO_CDN_BASE ++ baseName ++ AUDIO_EXT

/-- URL synthesis for the cover image. -/
def cover_image (baseName : String) : String :=
  COVER_CDN_BASE ++ baseName ++ COVER_SUFFIX ++ COVER_EXT

/-- URL synthesis for the album image. -/
def album_image (albumName : String) : String :=
  COVER_CDN_BASE ++ albumName ++ COVER_EXT

/-- One song record. Optional dict keys are `Option` fields; `none` means the
key is absent from the dict. `youtube` holds the nested `url`/`formats` pair. -/
structure Song where
  id : String
  title : String
  singers : List String
  language : String
  year : Int
  audioUrl : String
  coverImage : String
  albumImage : String
  album : Option String
  genre : Option String
  musicBy : Option String
  youtube : Option (String × String)
  deriving DecidableEq

/-- The record-construction block at the end of build_song_entry: the always
present fields, then `if album: song["album"] = album` and its three
analogues (a key is added only when the collected string is non-empty). -/
def mkSong (uid title : String) (singers : List String) (language : String)
    (year : Int) (audioUrl coverImage albumImage : String)
    (album genre musicBy youtubeUrl youtubeFormat : String) : Song :=
  { id := uid
    title := title
    singers := singers
    language := language
    year := year
    audioUrl := audioUrl
    coverImage := coverImage
    albumImage := albumImage
    album := if album = "" then none else some album
    genre := if genre = "" then none else some genre
    musicBy := if musicBy = "" then none else some musicBy
    youtube := if youtubeUrl = "" then none else some (youtubeUrl, youtubeFormat) }

/-- Result of running build_song_entry against a finite input script. -/
inductive BuildResult where
  | outOfInput
  | raised
  | ok (song : Song) (rest : List String)
  deriving DecidableEq

/-- The tail of build_song_entry from the year prompt onwards (the procedure
is linear; it is split here at a line boundary so the year step can be named).
The year line is a bare `input` with no retry: a non-empty, non-numeric entry
raises `ValueError`, uncaught → `.raised`. Then: base name, album name, album,
genre choice, YouTube URL, and (only when the URL is non-empty) YouTube
quality, followed by the record-assembly block. -/
def finish_song_entry (currentYear : Int)
    (uid title singersRaw musicBy language : String) :
    List String → BuildResult
  | [] => .outOfInput
  | yearLine :: in5 =>
  match (if pyStrip yearLine = "" then some currentYear
         else parseIntPy (pyStrip yearLine)) with
  | none => .raised
  | some year =>
  match prompt_required in5 with
  | none => .outOfInput
  | some (baseName, in6, _) =>
  match prompt_optional in6 with
  | none => .outOfInput
  | some (albumName, in7) =>
  match prompt_optional in7 with
  | none => .outOfInput
  | some (album, in8) =>
  match prompt_choice GENRES in8 with
  | none => .outOfInput
  | some (genre, in9, _) =>
  match prompt_optional in9 with
  | none => .outOfInput
  | some (youtubeUrl, in10) =>
  if youtubeUrl = "" then
    .ok (mkSong uid title (split_list singersRaw) language year
          (audio_url baseName) (cover_image baseName) (album_image albumName)
          album genre musicBy youtubeUrl "") in10
  else
    match prompt_choice YOUTUBE_QUALITIES in10 with
    | none => .outOfInput
    | some (fmt, in11, _) =>
        .ok (mkSong uid title (split_list singersRaw) language year
              (audio_url baseName) (cover_image baseName) (album_image albumName)
              album genre musicBy youtubeUrl fmt) in11

/-- build_song_entry: the linear prompting procedure. Prompts in source order:
title, singers, music-by, language choice, then `finish_song_entry` for the
remaining steps. -/
def build_song_entry (currentYear : Int) (uid : String)
    (input0 : List String) : BuildResult :=
  match prompt_required input0 with
  | none => .outOfInput
  | some (title, in1, _) =>
  match prompt_required in1 with
  | none => .outOfInput
  | some (singersRaw, in2, _) =>
  match prompt_optional in2 with
  | none => .outOfInput
  | some (musicBy, in3) =>
  match prompt_choice LANGUAGES in3 with
  | none => .outOfInput
  | some (language, in4, _) =>
      finish_song_entry currentYear uid title singersRaw musicBy language in4

/-- update_filters: appends this song's categorical values into the six lists.
Each guard mirrors the Python `"key" in song and song["key"]` truthiness test
(for the always-present `language` and `year` fields the membership test is
vacuous; `year` is truthy iff non-zero; `singers` is always a list here). -/
def update_filters (f : Filters) (song : Song) : Filters :=
  let f1 := if song.language ≠ "" then
      { f with languages := f.languages ++ [song.language] } else f
  let f2 := match song.genre with
    | some g => if g ≠ "" then { f1 with genres := f1.genres ++ [g] } else f1
    | none => f1
  let f3 := if song.year ≠ 0 then
      { f2 with years := f2.years ++ [song.year] } else f2
  let f4 := { f3 with singers := f3.singers ++ song.singers }
  let f5 := match song.musicBy with
    | some m => if m ≠ "" then { f4 with musicBy := f4.musicBy ++ [m] } else f4
    | none => f4
  match song.album with
  | some a => if a ≠ "" then { f5 with albums := f5.albums ++ [a] } else f5
  | none => f5

/-- The catalog update performed by main: `db["songs"].append(song)`. On a
well-formed catalog this appends in place; a missing `songs` key would raise
`KeyError` and a non-list value `AttributeError`, both uncaught. -/
def append_song (db song : JValue) : Except Unit JValue :=
  match db with
  | .obj kvs =>
      match getKey kvs "songs" with
      | some (.arr xs) => .ok (.obj (setKey kvs "songs" (.arr (xs ++ [song]))))
      | _ => .error ()
  | _ => .error ()

/-! Helper lemmas about the association-list dictionary operations. -/

lemma getKey_setKey_self (kvs : List (String × JValue)) (k : String) (v : JValue) :
    getKey (setKey kvs k v) k = some v := by
  induction kvs with
  | nil => simp [setKey, getKey]
  | cons p rest ih =>
      obtain ⟨k1, v1⟩ := p
      by_cases hp : k1 = k
      · simp [setKey, hp, getKey]
      · simp [setKey, hp, getKey, ih]

lemma getKey_setKey_ne (kvs : List (String × JValue)) (k k2 : String) (v : JValue)
    (h : k2 ≠ k) : getKey (setKey kvs k v) k2 = getKey kvs k2 := by
  induction kvs with
  | nil =>
      simp only [setKey, getKey]
      rw [if_neg (fun hh => h hh.symm)]
  | cons p rest ih =>
      obtain ⟨k1, v1⟩ := p
      by_cases hp : k1 = k
      · subst hp
        simp only [setKey, if_pos rfl, getKey]
        rw [if_neg (fun hh => h hh.symm), if_neg (fun hh => h hh.symm)]
      · simp [setKey, hp, getKey, ih]

lemma load_metadata_shape (fs : FileState) (db : JValue)
    (h : load_metadata fs = .ok db) :
    ∃ kvs xs, db = .obj kvs ∧ getKey kvs "songs" = some (.arr xs) := by
  cases fs with
  | absent =>
      injection h with h1
      exact ⟨_, [], h1.symm, rfl⟩
  | unreadable => exact Except.noConfusion h
  | unparsable =>
      injection h with h1
      exact ⟨_, [], h1.symm, rfl⟩
  | parsed v =>
      cases v with
      | obj kvs =>
          simp only [load_metadata] at h
          split at h
          · rename_i xs hx
            injection h with h1
            exact ⟨kvs, xs, h1.symm, hx⟩
          · injection h with h1
            exact ⟨_, [], h1.symm, getKey_setKey_self kvs "songs" (.arr [])⟩
      | null => exact Except.noConfusion h
      | bool b => exact Except.noConfusion h
      | num n => exact Except.noConfusion h
      | str s => exact Except.noConfusion h
      | arr xs => exact Except.noConfusion h

lemma getKey_normalizeKey_self (kvs : List (String × JValue)) (k : String) :
    getKey (normalizeKey kvs k) k = some (.arr (normArr (getKey kvs k))) := by
  unfold normalizeKey
  split
  · rename_i xs hx
    rw [hx]
    rfl
  · rename_i hx
    rw [getKey_setKey_self]
    rcases hg : getKey kvs k with _ | v
    · rfl
    · cases v
      case arr xs => exact absurd hg (hx xs)
      all_goals rfl

lemma getKey_normalizeKey_ne (kvs : List (String × JValue)) (k k2 : String)
    (h : k2 ≠ k) : getKey (normalizeKey kvs k) k2 = getKey kvs k2 := by
  unfold normalizeKey
  split
  · rfl
  · exact getKey_setKey_ne kvs k k2 _ h

/-! Helper lemmas about the prompt loops. -/

lemma prompt_required_blank (l : String) (rest : List String) (h : pyStrip l = "") :
    prompt_required (l :: rest) =
      (prompt_required rest).map (fun x => (x.1, x.2.1, requiredMsg :: x.2.2)) := by
  simp only [prompt_required, h, if_pos]
  cases prompt_required rest with
  | none => rfl
  | some x => rfl

lemma prompt_required_found (l : String) (rest : List String) (h : pyStrip l ≠ "") :
    prompt_required (l :: rest) = some (pyStrip l, rest, []) := by
  simp only [prompt_required, h, if_neg]
  simp [h]

lemma prompt_choice_invalid (options : List String) (l : String) (rest : List String)
    (h : pyIsDigit (pyStrip l) = false ∨
      (pyIsDigit (pyStrip l) = true ∧ digitsVal (pyStrip l).data ≠ 0 ∧
        options.length < digitsVal (pyStrip l).data)) :
    prompt_choice options (l :: rest) =
      (prompt_choice options rest).map (fun x => (x.1, x.2.1, invalidMsg :: x.2.2)) := by
  rcases h with h | ⟨h1, h2, h3⟩
  · simp only [prompt_choice, h]
    cases prompt_choice options rest with
    | none => rfl
    | some x => rfl
  · simp only [prompt_choice, h1, if_true, if_neg h2,
      if_neg (by omega : ¬ digitsVal (pyStrip l).data ≤ options.length)]
    cases prompt_choice options rest with
    | none => rfl
    | some x => rfl

lemma prompt_choice_custom (options : List String) (line custom : String)
    (rest : List String) (hd : pyIsDigit (pyStrip line) = true)
    (h0 : digitsVal (pyStrip line).data = 0) :
    prompt_choice options (line :: custom :: rest) =
      some (pyStrip custom, rest, []) := by
  simp only [prompt_choice, hd, if_true, h0, if_pos]

lemma build_year_raise (cy : Int) (uid title singersRaw musicBy language yearLine : String)
    (tail : List String) (hne : pyStrip yearLine ≠ "")
    (hparse : parseIntPy (pyStrip yearLine) = none) :
    finish_song_entry cy uid title singersRaw musicBy language (yearLine :: tail) =
      .raised := by
  simp only [finish_song_entry]
  rw [if_neg hne, hparse]

/-! Helper lemmas about record assembly and the filter index. -/

lemma mkSong_optional (uid title : String) (singers : List String)
    (language : String) (year : Int)
    (au cov alb album genre musicBy yUrl yFmt : String) :
    (∀ a, (mkSong uid title singers language year au cov alb
        album genre musicBy yUrl yFmt).album = some a → a ≠ "") ∧
    (∀ g, (mkSong uid title singers language year au cov alb
        album genre musicBy yUrl yFmt).genre = some g → g ≠ "") ∧
    (∀ m, (mkSong uid title singers language year au cov alb
        album genre musicBy yUrl yFmt).musicBy = some m → m ≠ "") ∧
    (∀ u fmt, (mkSong uid title singers language year au cov alb
        album genre musicBy yUrl yFmt).youtube = some (u, fmt) → u ≠ "") := by
  refine ⟨?_, ?_, ?_, ?_⟩
  · intro a ha
    simp only [mkSong] at ha
    split at ha
    · exact Option.noConfusion ha
    · rename_i hne
      injection ha with hv
      subst hv
      exact hne
  · intro g hg
    simp only [mkSong] at hg
    split at hg
    · exact Option.noConfusion hg
    · rename_i hne
      injection hg with hv
      subst hv
      exact hne
  · intro m hm
    simp only [mkSong] at hm
    split at hm
    · exact Option.noConfusion hm
    · rename_i hne
      injection hm with hv
      subst hv
      exact hne
  · intro u fmt hu
    simp only [mkSong] at hu
    split at hu
    · exact Option.noConfusion hu
    · rename_i hne
      injection hu with hv
      rw [Prod.mk.injEq] at hv
      obtain ⟨hv1, -⟩ := hv
      subst hv1
      exact hne

lemma dedupSortStr_sorted (xs : List String) :
    List.Sorted (fun a b : String => a ≤ b) (dedupSortStr xs) :=
  List.sorted_insertionSort _ _

lemma dedupSortStr_nodup (xs : List String) : (dedupSortStr xs).Nodup :=
  (List.perm_insertionSort _ _).nodup_iff.mpr (List.nodup_dedup xs)

lemma dedupSortInt_sorted (xs : List Int) :
    List.Sorted (fun a b : Int => a ≤ b) (dedupSortInt xs) :=
  List.sorted_insertionSort _ _

lemma dedupSortInt_nodup (xs : List Int) : (dedupSortInt xs).Nodup :=
  (List.perm_insertionSort _ _).nodup_iff.mpr (List.nodup_dedup xs)

/-- C1: for every catalog state successfully loaded and every song record, the
run's catalog update yields a `songs` sequence equal to the previous one with
the new song appended at the end, and every pre-existing entry is unchanged at
its original position (append-only, order-preserving). -/
theorem catalog_append_only (fs : FileState) (db song : JValue)
    (h : load_metadata fs = .ok db) :
    ∃ kvs xs, db = .obj kvs ∧ getKey kvs "songs" = some (.arr xs) ∧
      append_song db song = .ok (.obj (setKey kvs "songs" (.arr (xs ++ [song])))) ∧
      getKey (setKey kvs "songs" (.arr (xs ++ [song]))) "songs" =
        some (.arr (xs ++ [song])) ∧
      (∀ i, i < xs.length → (xs ++ [song])[i]? = xs[i]?) := by
  obtain ⟨kvs, xs, hdb, hk⟩ := load_metadata_shape fs db h
  subst hdb
  refine ⟨kvs, xs, rfl, hk, ?_, getKey_setKey_self kvs "songs" _, ?_⟩
  · simp [append_song, hk]
  · intro i hi
    rw [List.getElem?_append, if_pos hi]

/-- Witness for C1 at a concrete one-song catalog. -/
theorem catalog_append_only_witness :
    append_song (.obj [("songs", .arr [.str "old"])]) (.str "new") =
      .ok (.obj [("songs", .arr [.str "old", .str "new"])]) := by
  obtain ⟨kvs, xs, hdb, hk, happ, -, -⟩ :=
    catalog_append_only (.parsed (.obj [("songs", .arr [.str "old"])]))
      _ (.str "new") rfl
  injection hdb with hkvs
  subst hkvs
  have h2 : some (JValue.arr [JValue.str "old"]) = some (JValue.arr xs) := hk
  injection h2 with h3
  injection h3 with h4
  subst h4
  exact happ

/-- C2 (amended): empty required fields and invalid menu choices are recovered
locally by re-prompting with a user-facing message, but the year prompt has no
retry: a non-empty, non-numeric year entry raises a ValueError that propagates
out of build_song_entry. -/
theorem invalid_input_recovery_amended :
    (∀ (l : String) (rest : List String), pyStrip l = "" →
        prompt_required (l :: rest) =
          (prompt_required rest).map (fun x => (x.1, x.2.1, requiredMsg :: x.2.2))) ∧
    (∀ (options : List String) (l : String) (rest : List String),
        (pyIsDigit (pyStrip l) = false ∨
          (pyIsDigit (pyStrip l) = true ∧ digitsVal (pyStrip l).data ≠ 0 ∧
            options.length < digitsVal (pyStrip l).data)) →
        prompt_choice options (l :: rest) =
          (prompt_choice options rest).map
            (fun x => (x.1, x.2.1, invalidMsg :: x.2.2))) ∧
    (∀ (cy : Int) (uid yearLine : String) (rest : List String),
        pyStrip yearLine ≠ "" → parseIntPy (pyStrip yearLine) = none →
        build_song_entry cy uid ("T" :: "A" :: "" :: "1" :: yearLine :: rest) =
          .raised) := by
  refine ⟨prompt_required_blank, prompt_choice_invalid, ?_⟩
  intro cy uid yearLine rest hne hparse
  have h0 : build_song_entry cy uid ("T" :: "A" :: "" :: "1" :: yearLine :: rest) =
      finish_song_entry cy uid "T" "A" "" "English" (yearLine :: rest) := rfl
  rw [h0, build_year_raise _ _ _ _ _ _ _ _ hne hparse]

/-- Witness for C2's amended statement at the year entry "abc". -/
theorem invalid_input_recovery_amended_witness :
    build_song_entry 2025 "u" ["T", "A", "", "1", "abc"] = .raised := by
  have h := invalid_input_recovery_amended.2.2 2025 "u" "abc" [] (by decide) (by decide)
  simpa using h

/-- Counterexample to C2 as stated: on an input script whose year entry is the
non-numeric "abc" followed by valid values for every remaining prompt, the
record-assembly procedure raises instead of re-prompting. -/
theorem nonnumeric_year_raises :
    build_song_entry 2025 "u" ["T", "A", "", "1", "abc", "X", "", "", "2", ""] =
      .raised := rfl

/-- C3: optional keys are present in the assembled record exactly when their
source value is non-empty (never as null or empty placeholders), and the §8
end-to-end run (title "Song", singers "A, B", language choice 1, blank year,
base name "X", blank album name, blank album, genre choice 2, blank YouTube
URL) yields a record with no album, musicBy or youtube key, singers
["A", "B"], language "English" and genre "Mass". -/
theorem optional_keys_absent :
    (∀ (cy : Int) (uid : String) (inputs : List String) (song : Song)
        (rest : List String),
        build_song_entry cy uid inputs = .ok song rest →
        (∀ a, song.album = some a → a ≠ "") ∧
        (∀ g, song.genre = some g → g ≠ "") ∧
        (∀ m, song.musicBy = some m → m ≠ "") ∧
        (∀ u fmt, song.youtube = some (u, fmt) → u ≠ "")) ∧
    (∀ (cy : Int) (uid : String),
        build_song_entry cy uid ["Song", "A, B", "", "1", "", "X", "", "", "2", ""] =
          .ok { id := uid, title := "Song", singers := ["A", "B"],
                language := "English", year := cy, audioUrl := audio_url "X",
                coverImage := cover_image "X", albumImage := album_image "",
                album := none, genre := some "Mass", musicBy := none,
                youtube := none } []) := by
  constructor
  · intro cy uid inputs song rest h
    unfold build_song_entry at h
    repeat' split at h
    any_goals exact BuildResult.noConfusion h
    all_goals (
      unfold finish_song_entry at h
      repeat' split at h
      any_goals exact BuildResult.noConfusion h
      all_goals (
        injection h with h1 h2
        subst h1
        exact mkSong_optional _ _ _ _ _ _ _ _ _ _ _ _ _))
  · intro cy uid
    rfl

/-- Witness for C3 at the §8 input script. -/
theorem optional_keys_absent_witness :
    build_song_entry 2025 "u" ["Song", "A, B", "", "1", "", "X", "", "", "2", ""] =
      .ok { id := "u", title := "Song", singers := ["A", "B"],
            language := "English", year := 2025, audioUrl := audio_url "X",
            coverImage := cover_image "X", albumImage := album_image "",
            album := none, genre := some "Mass", musicBy := none,
            youtube := none } [] ∧ ("Mass" : String) ≠ "" :=
  ⟨optional_keys_absent.2 2025 "u",
    (optional_keys_absent.1 2025 "u"
      ["Song", "A, B", "", "1", "", "X", "", "", "2", ""] _ []
      (optional_keys_absent.2 2025 "u")).2.1 "Mass" rfl⟩

/-- C4: saving any in-memory filter index (possibly with duplicates or
unsorted values) and loading it back yields the saved document unchanged, and
each of its six arrays is sorted ascending and duplicate-free. -/
theorem filters_roundtrip (f : Filters) :
    load_filters (.parsed (filtersToJson (save_filters f))) =
      .ok (filtersToJson (save_filters f)) ∧
    List.Sorted (fun a b => a ≤ b) (save_filters f).languages ∧
      (save_filters f).languages.Nodup ∧
    List.Sorted (fun a b => a ≤ b) (save_filters f).genres ∧
      (save_filters f).genres.Nodup ∧
    List.Sorted (fun a b => a ≤ b) (save_filters f).years ∧
      (save_filters f).years.Nodup ∧
    List.Sorted (fun a b => a ≤ b) (save_filters f).singers ∧
      (save_filters f).singers.Nodup ∧
    List.Sorted (fun a b => a ≤ b) (save_filters f).musicBy ∧
      (save_filters f).musicBy.Nodup ∧
    List.Sorted (fun a b => a ≤ b) (save_filters f).albums ∧
      (save_filters f).albums.Nodup := by
  refine ⟨?_, dedupSortStr_sorted _, dedupSortStr_nodup _, dedupSortStr_sorted _,
    dedupSortStr_nodup _, dedupSortInt_sorted _, dedupSortInt_nodup _,
    dedupSortStr_sorted _, dedupSortStr_nodup _, dedupSortStr_sorted _,
    dedupSortStr_nodup _, dedupSortStr_sorted _, dedupSortStr_nodup _⟩
  simp only [load_filters, filterKeys, List.foldl, filtersToJson]
  rw [normalizeKey, normalizeKey, normalizeKey, normalizeKey, normalizeKey,
    normalizeKey]
  simp [getKey]

/-- Witness for C4 at a duplicated, reverse-ordered languages list. -/
theorem filters_roundtrip_witness :
    load_filters
        (.parsed (filtersToJson (save_filters ⟨["b", "a", "a"], [], [], [], [], []⟩))) =
      .ok (filtersToJson (save_filters ⟨["b", "a", "a"], [], [], [], [], []⟩)) :=
  (filters_roundtrip ⟨["b", "a", "a"], [], [], [], [], []⟩).1

/-- C5: the filter-update step appends (never replaces): the language when
non-empty, the genre/musicBy/album keys whenever present (they are non-empty
in any assembled record), the year when non-zero (a year of 0 is skipped), and
every singer; no deduplication or sorting happens at append time, so the
in-memory lists may hold duplicates. -/
theorem update_filters_appends (f : Filters) (song : Song)
    (hg : ∀ g, song.genre = some g → g ≠ "")
    (hm : ∀ m, song.musicBy = some m → m ≠ "")
    (ha : ∀ a, song.album = some a → a ≠ "") :
    (update_filters f song).languages =
      f.languages ++ (if song.language = "" then [] else [song.language]) ∧
    (update_filters f song).genres = f.genres ++ song.genre.toList ∧
    (update_filters f song).years =
      f.years ++ (if song.year = 0 then [] else [song.year]) ∧
    (update_filters f song).singers = f.singers ++ song.singers ∧
    (update_filters f song).musicBy = f.musicBy ++ song.musicBy.toList ∧
    (update_filters f song).albums = f.albums ++ song.album.toList := by
  rcases hgs : song.genre with _ | g <;> rcases hms : song.musicBy with _ | m <;>
    rcases has : song.album with _ | a <;>
    by_cases hl : song.language = "" <;> by_cases hy : song.year = 0 <;>
    simp_all [update_filters, Option.toList]

/-- Witness for C5: appending an already-present language leaves a duplicate
in the in-memory index. -/
theorem update_filters_appends_witness :
    (update_filters ⟨["English"], [], [], [], [], []⟩
        { id := "u", title := "T", singers := ["A"], language := "English",
          year := 2025, audioUrl := "x", coverImage := "y", albumImage := "z",
          album := none, genre := some "Mass", musicBy := none,
          youtube := none }).languages = ["English", "English"] := by
  have h := update_filters_appends ⟨["English"], [], [], [], [], []⟩
    { id := "u", title := "T", singers := ["A"], language := "English",
      year := 2025, audioUrl := "x", coverImage := "y", albumImage := "z",
      album := none, genre := some "Mass", musicBy := none, youtube := none }
    (by intro g hgg; injection hgg with h2; subst h2; decide)
    (by intro m hmm; exact Option.noConfusion hmm)
    (by intro a haa; exact Option.noConfusion haa)
  rw [h.1]
  rfl

/-- C6: URL synthesis is pure string concatenation of the CDN roots, base or
album name, and fixed suffixes; an empty album name yields the cover root plus
just the extension; for base name "NTCH" the audio URL ends with "NTCH.mp3"
and the cover image with "NTCH-C.jpg", and the record assembled from a run
with base name "NTCH" carries exactly these synthesized URLs. -/
theorem url_synthesis :
    (∀ baseName : String, audio_url baseName = AUDIO_CDN_BASE ++ baseName ++ ".mp3") ∧
    (∀ baseName : String,
        cover_image baseName = COVER_CDN_BASE ++ baseName ++ "-C" ++ ".jpg") ∧
    (∀ albumName : String,
        album_image albumName = COVER_CDN_BASE ++ albumName ++ ".jpg") ∧
    album_image "" = COVER_CDN_BASE ++ ".jpg" ∧
    (∃ pre : String, audio_url "NTCH" = pre ++ "NTCH.mp3") ∧
    (∃ pre : String, cover_image "NTCH" = pre ++ "NTCH-C.jpg") ∧
    (∀ (cy : Int) (uid : String) (song : Song) (rest : List String),
        build_song_entry cy uid ["T", "A", "", "1", "", "NTCH", "", "", "2", ""] =
          .ok song rest →
        song.audioUrl = audio_url "NTCH" ∧ song.coverImage = cover_image "NTCH" ∧
          song.albumImage = album_image "") := by
  refine ⟨fun _ => rfl, fun _ => rfl, fun _ => rfl, rfl,
    ⟨AUDIO_CDN_BASE, rfl⟩, ⟨COVER_CDN_BASE, rfl⟩, ?_⟩
  intro cy uid song rest h
  have h0 : build_song_entry cy uid ["T", "A", "", "1", "", "NTCH", "", "", "2", ""] =
      .ok { id := uid, title := "T", singers := ["A"], language := "English",
            year := cy, audioUrl := audio_url "NTCH", coverImage := cover_image "NTCH",
            albumImage := album_image "", album := none, genre := some "Mass",
            musicBy := none, youtube := none } [] := rfl
  rw [h0] at h
  injection h with h1 h2
  subst h1
  exact ⟨rfl, rfl, rfl⟩

/-- Witness for C6 at the record assembled with base name "NTCH". -/
theorem url_synthesis_witness :
    Song.audioUrl
        { id := "u", title := "T", singers := ["A"], language := "English",
          year := 2025, audioUrl := audio_url "NTCH", coverImage := cover_image "NTCH",
          albumImage := album_image "", album := none, genre := some "Mass",
          musicBy := none, youtube := none } = audio_url "NTCH" :=
  (url_synthesis.2.2.2.2.2.2 2025 "u" _ [] rfl).1

/-- C7: prompt_choice returns the stripped custom value from the next line
when the selection digits read 0 (for any options list), returns the option at
position n for a digit selection n within 1..len(options), and re-prompts with
the retry message on any non-digit or out-of-range selection. -/
theorem prompt_choice_behaviour :
    (∀ (options : List String) (line custom : String) (rest : List String),
        pyIsDigit (pyStrip line) = true → digitsVal (pyStrip line).data = 0 →
        prompt_choice options (line :: custom :: rest) =
          some (pyStrip custom, rest, [])) ∧
    (∀ (options : List String) (line : String) (rest : List String)
        (hd : pyIsDigit (pyStrip line) = true)
        (h1 : 1 ≤ digitsVal (pyStrip line).data)
        (h2 : digitsVal (pyStrip line).data ≤ options.length)
        (h : digitsVal (pyStrip line).data - 1 < options.length),
        prompt_choice options (line :: rest) =
          some (options.get ⟨digitsVal (pyStrip line).data - 1, h⟩, rest, [])) ∧
    (∀ (options : List String) (line : String) (rest : List String),
        (pyIsDigit (pyStrip line) = false ∨
          (pyIsDigit (pyStrip line) = true ∧ digitsVal (pyStrip line).data ≠ 0 ∧
            options.length < digitsVal (pyStrip line).data)) →
        prompt_choice options (line :: rest) =
          (prompt_choice options rest).map
            (fun x => (x.1, x.2.1, invalidMsg :: x.2.2))) ∧
    (∀ options : List String,
        prompt_choice options ("0" :: "Custom Lang" :: []) =
          some ("Custom Lang", [], [])) := by
  refine ⟨prompt_choice_custom, ?_, prompt_choice_invalid, ?_⟩
  · intro options line rest hd h1 h2 h
    simp only [prompt_choice, hd, if_true,
      if_neg (by omega : ¬ digitsVal (pyStrip line).data = 0),
      if_pos h2, List.getD_eq_getElem _ _ h]
    rfl
  · intro options
    have h := prompt_choice_custom options "0" "Custom Lang" [] (by decide) (by decide)
    simpa using h

/-- Witness for C7: a non-numeric then an out-of-range selection are retried,
then selection 2 returns the second option. -/
theorem prompt_choice_behaviour_witness :
    prompt_choice ["English", "Telugu"] ["x", "9", "2", "z"] =
      some ("Telugu", ["z"], [invalidMsg, invalidMsg]) := by
  have h2 := prompt_choice_behaviour.2.1 ["English", "Telugu"] "2" ["z"]
    (by decide) (by decide) (by decide) (by decide)
  have h9 := prompt_choice_behaviour.2.2.1 ["English", "Telugu"] "9" ["2", "z"]
    (by right; exact ⟨by decide, by decide, by decide⟩)
  have hx := prompt_choice_behaviour.2.2.1 ["English", "Telugu"] "x" ["9", "2", "z"]
    (by left; decide)
  rw [hx, h9, h2]
  rfl

/-- C8 (amended): for absent or unparsable files both loaders return the empty
defaults, and a parsed top-level object is normalized (missing or non-list
keys become empty lists) without raising; but the loaders are not total: an
existing unreadable file and a parsed file whose top-level JSON value is not
an object both raise exceptions that escape. -/
theorem load_totality_amended :
    (load_metadata .absent = .ok (.obj [("songs", .arr [])])) ∧
    (load_metadata .unparsable = .ok (.obj [("songs", .arr [])])) ∧
    (∀ kvs, ∃ kvs2, load_metadata (.parsed (.obj kvs)) = .ok (.obj kvs2) ∧
        getKey kvs2 "songs" = some (.arr (normArr (getKey kvs "songs")))) ∧
    (load_metadata (.parsed (.obj [("songs", .str "not-a-list")])) =
      .ok (.obj [("songs", .arr [])])) ∧
    (load_filters .absent = .ok emptyFiltersJson) ∧
    (load_filters .unparsable = .ok emptyFiltersJson) ∧
    (∀ kvs, ∃ kvs2, load_filters (.parsed (.obj kvs)) = .ok (.obj kvs2) ∧
        ∀ k ∈ filterKeys, getKey kvs2 k = some (.arr (normArr (getKey kvs k)))) ∧
    (load_metadata .unreadable = .error ()) ∧
    (load_filters .unreadable = .error ()) ∧
    (∀ v : JValue, (∀ kvs, v ≠ .obj kvs) →
        load_metadata (.parsed v) = .error () ∧
        load_filters (.parsed v) = .error ()) := by
  refine ⟨rfl, rfl, ?_, rfl, rfl, rfl, ?_, rfl, rfl, ?_⟩
  · intro kvs
    simp only [load_metadata]
    split
    · rename_i xs hx
      exact ⟨kvs, rfl, by rw [hx]; rfl⟩
    · rename_i hx
      refine ⟨_, rfl, ?_⟩
      rw [getKey_setKey_self]
      rcases hg : getKey kvs "songs" with _ | v
      · rfl
      · cases v
        case arr xs => exact absurd hg (hx xs)
        all_goals rfl
  · intro kvs
    refine ⟨_, rfl, ?_⟩
    intro k hk
    simp only [filterKeys, List.mem_cons, List.not_mem_nil, or_false] at hk
    simp only [filterKeys, List.foldl]
    rcases hk with h | h | h | h | h | h
    all_goals subst h
    · rw [getKey_normalizeKey_ne _ _ _ (by decide), getKey_normalizeKey_ne _ _ _ (by decide),
        getKey_normalizeKey_ne _ _ _ (by decide), getKey_normalizeKey_ne _ _ _ (by decide),
        getKey_normalizeKey_ne _ _ _ (by decide), getKey_normalizeKey_self]
    · rw [getKey_normalizeKey_ne _ _ _ (by decide), getKey_normalizeKey_ne _ _ _ (by decide),
        getKey_normalizeKey_ne _ _ _ (by decide), getKey_normalizeKey_ne _ _ _ (by decide),
        getKey_normalizeKey_self, getKey_normalizeKey_ne _ _ _ (by decide)]
    · rw [getKey_normalizeKey_ne _ _ _ (by decide), getKey_normalizeKey_ne _ _ _ (by decide),
        getKey_normalizeKey_ne _ _ _ (by decide), getKey_normalizeKey_self,
        getKey_normalizeKey_ne _ _ _ (by decide), getKey_normalizeKey_ne _ _ _ (by decide)]
    · rw [getKey_normalizeKey_ne _ _ _ (by decide), getKey_normalizeKey_ne _ _ _ (by decide),
        getKey_normalizeKey_self, getKey_normalizeKey_ne _ _ _ (by decide),
        getKey_normalizeKey_ne _ _ _ (by decide), getKey_normalizeKey_ne _ _ _ (by decide)]
    · rw [getKey_normalizeKey_ne _ _ _ (by decide), getKey_normalizeKey_self,
        getKey_normalizeKey_ne _ _ _ (by decide), getKey_normalizeKey_ne _ _ _ (by decide),
        getKey_normalizeKey_ne _ _ _ (by decide), getKey_normalizeKey_ne _ _ _ (by decide)]
    · rw [getKey_normalizeKey_self, getKey_normalizeKey_ne _ _ _ (by decide),
        getKey_normalizeKey_ne _ _ _ (by decide), getKey_normalizeKey_ne _ _ _ (by decide),
        getKey_normalizeKey_ne _ _ _ (by decide), getKey_normalizeKey_ne _ _ _ (by decide)]
  · intro v hv
    cases v with
    | obj kvs => exact absurd rfl (hv kvs)
    | null => exact ⟨rfl, rfl⟩
    | bool b => exact ⟨rfl, rfl⟩
    | num n => exact ⟨rfl, rfl⟩
    | str s => exact ⟨rfl, rfl⟩
    | arr xs => exact ⟨rfl, rfl⟩

/-- Witness for C8's amended statement at the parsed non-object value 42. -/
theorem load_totality_amended_witness :
    load_metadata (.parsed (.num 42)) = .error () ∧
    load_filters (.parsed (.num 42)) = .error () :=
  load_totality_amended.2.2.2.2.2.2.2.2.2 (.num 42)
    (fun _ h => JValue.noConfusion h)

/-- Counterexample to C8 as stated: an unreadable existing metadata file and a
metadata file parsing to a top-level string both make load_metadata raise, so
the loaders are not total over all file states. -/
theorem load_unreadable_or_nonobject_raises :
    load_metadata FileState.unreadable = .error () ∧
    load_metadata (.parsed (.str "oops")) = .error () := ⟨rfl, rfl⟩

/-- C9: prompt_required skips any finite run of blank lines, printing one
retry message per rejected line, and returns the first non-blank input
stripped; on an input script consisting solely of blank lines it consumes
everything and never produces a value (the Python loop never terminates on an
all-blank stream). -/
theorem prompt_required_terminates :
    (∀ (pre : List String) (l : String) (rest : List String),
        (∀ x ∈ pre, pyStrip x = "") → pyStrip l ≠ "" →
        prompt_required (pre ++ l :: rest) =
          some (pyStrip l, rest, List.replicate pre.length requiredMsg)) ∧
    (∀ inputs : List String, (∀ x ∈ inputs, pyStrip x = "") →
        prompt_required inputs = none) := by
  constructor
  · intro pre
    induction pre with
    | nil =>
        intro l rest _ hl
        simpa using prompt_required_found l rest hl
    | cons x xs ih =>
        intro l rest hpre hl
        rw [List.cons_append, prompt_required_blank x _ (hpre x (by simp)),
            ih l rest (fun y hy => hpre y (by simp [hy])) hl]
        simp [List.replicate_succ]
  · intro inputs
    induction inputs with
    | nil => intro _; rfl
    | cons x xs ih =>
        intro h
        rw [prompt_required_blank x xs (h x (by simp)),
            ih (fun y hy => h y (by simp [hy]))]
        rfl

/-- Witness for C9: two blank lines are rejected with retry messages before
" hi " is accepted as "hi", and an all-blank script yields no value. -/
theorem prompt_required_terminates_witness :
    prompt_required ["", "  ", " hi ", "z"] =
      some ("hi", ["z"], [requiredMsg, requiredMsg]) ∧
    prompt_required ["", " "] = none := by
  constructor
  · have h := prompt_required_terminates.1 ["", "  "] " hi " ["z"]
      (by decide) (by decide)
    simpa using h
  · exact prompt_required_terminates.2 ["", " "] (by decide)

/-- C10: choosing menu option 0 at the language prompt and entering a blank
custom value produces a completed record whose required language field is the
empty string. -/
theorem blank_custom_language :
    ∃ song : Song,
      build_song_entry 2025 "uid-1"
          ["T", "A", "", "0", "", "", "X", "", "", "2", ""] =
        .ok song [] ∧ song.language = "" := by
  refine ⟨_, rfl, rfl⟩

end Music
